import Mathlib

/- Shallow embedding of the voice-chatbot application (src/app.py).
   Turns are role/content records, the chat history is a Lean list, and one
   user-triggered cycle of transcribe_and_generate_response is modelled as a
   function from the session state and an externally determined outcome of the
   collaborator calls to the resulting state.  Temporary files are modelled as
   the list of names currently present in the temp directory. -/

/-- One chat message, as stored in st.session_state.chat_history:
a dict with a role string and a content string. -/
structure Turn where
  role : String
  content : String
  deriving DecidableEq

namespace Config

/-- Config.LLM_MODEL (app.py line 18). -/
def LLM_MODEL : String := "llama3-8b-8192"

/-- Config.MAX_TOKENS (app.py line 19). -/
def MAX_TOKENS : Nat := 20

/-- Config.TEMPERATURE (app.py line 20), the literal 0.3 modelled as a rational. -/
def TEMPERATURE : ℚ := 3 / 10

/-- Config.MAX_HISTORY_LENGTH (app.py line 21). -/
def MAX_HISTORY_LENGTH : Nat := 50

/-- Config.LISTEN_TIMEOUT (app.py line 22), in seconds. -/
def LISTEN_TIMEOUT : Nat := 5

/-- Config.DEFAULT_VOICE (app.py line 24). -/
def DEFAULT_VOICE : String := "en-US-JennyNeural"

end Config

/-- The limit_history function (app.py lines 132-135): if the history is longer
than Config.MAX_HISTORY_LENGTH it is replaced by its last MAX_HISTORY_LENGTH
entries (the Python slice chat_history[-50:]), otherwise it is left unchanged. -/
def limit_history (chat_history : List Turn) : List Turn :=
  if chat_history.length > Config.MAX_HISTORY_LENGTH then
    chat_history.drop (chat_history.length - Config.MAX_HISTORY_LENGTH)
  else
    chat_history

/-- The fixed system message prepended to every model request (app.py line 194). -/
def system_message : Turn :=
  ⟨("system"), ("You are a concise assistant. Always respond in 40 words or less.")⟩

/-- One request to the language-model collaborator, as assembled by
client.chat.completions.create (app.py lines 197-202). -/
structure Request where
  messages : List Turn
  model : String
  max_tokens : Nat
  temperature : ℚ
  deriving DecidableEq

/-- The request built at app.py lines 193-202: the fixed system message followed
by the whole current chat history, with the configured model, token limit and
temperature. -/
def build_request (chat_history : List Turn) : Request :=
  ⟨system_message :: chat_history, Config.LLM_MODEL, Config.MAX_TOKENS, Config.TEMPERATURE⟩

/-- Outcome of the external collaborator calls inside one cycle, which the code
observes through return values and exceptions:
listenTimeout is sr.WaitTimeoutError at line 166; noAudioData is empty
audio.get_wav_data at line 172; requestError is sr.RequestError raised by
recognize_google; unknownValue is sr.UnknownValueError; genFailure carries a
successful transcript but the model call raised; success carries the transcript
and the model reply. -/
inductive Outcome where
  | listenTimeout : Outcome
  | noAudioData : Outcome
  | requestError : Outcome
  | unknownValue : Outcome
  | genFailure : String → Outcome
  | success : String → String → Outcome
  deriving DecidableEq

/-- The session state a cycle reads and writes: the chat history and the set of
files currently in Config.TEMP_DIR (file names, in creation order). -/
structure CycleState where
  history : List Turn
  tempDir : List String
  deriving DecidableEq

/-- The observable result of one call to transcribe_and_generate_response:
the new history, the temp-directory contents, the request sent to the model
collaborator (if the cycle reached that stage), and the error message surfaced
via st.warning or st.error (if any).  The Python function returns on every
path, so control always comes back to the idle UI. -/
structure CycleResult where
  history : List Turn
  tempDir : List String
  request : Option Request
  error : Option String
  deriving DecidableEq

/-- Name of the wav file written at app.py line 178 (the uuid is irrelevant to
the claims, so a fixed name stands for it). -/
def wav_file : String := "audio_uuid.wav"

/-- Name of the mp3 file written by speak via generate_speech (app.py line 77). -/
def tts_file : String := "tts_uuid.mp3"

/-- Creating a file in the temp directory. -/
def addFile (dir : List String) (f : String) : List String := dir ++ [f]

/-- Removing a file from the temp directory (os.remove / os.path.exists guard). -/
def removeFile (dir : List String) (f : String) : List String := dir.erase f

/-- The cleanup_old_files function (app.py lines 147-155): it unlinks every file
in the temp directory; per-file deletion errors are caught and only reported,
modelled here as every deletion succeeding, so the directory ends empty. -/
def cleanup_old_files (_dir : List String) : List String := []

/-- The try-body of transcribe_and_generate_response (app.py lines 160-218),
branch by branch.  On timeout or empty audio the function returns before any
file or history mutation.  Otherwise the wav temp file is written, and the
inner finally at lines 188-190 removes it on every path out of recognize_google.
On a transcript the user turn is appended (line 186); the model request of
lines 193-202 is then sent; if it raises, the generic handler at line 217
reports the error with the user turn still in place.  On success the assistant
turn is appended, limit_history runs, and speak creates and removes the mp3. -/
def cycle_body (s : CycleState) : Outcome → CycleResult
  | Outcome.listenTimeout =>
      ⟨s.history, s.tempDir, none, some ("No speech detected. Please try again.")⟩
  | Outcome.noAudioData =>
      ⟨s.history, s.tempDir, none, some ("No audio was recorded. Please try again.")⟩
  | Outcome.requestError =>
      ⟨s.history, removeFile (addFile s.tempDir wav_file) wav_file, none,
        some ("Could not request results")⟩
  | Outcome.unknownValue =>
      ⟨s.history, removeFile (addFile s.tempDir wav_file) wav_file, none,
        some ("Could not understand audio. Please try again.")⟩
  | Outcome.genFailure transcript =>
      let h1 := s.history ++ [⟨("user"), transcript⟩]
      ⟨h1, removeFile (addFile s.tempDir wav_file) wav_file,
        some (build_request h1), some ("An error occurred")⟩
  | Outcome.success transcript reply =>
      let h1 := s.history ++ [⟨("user"), transcript⟩]
      let h2 := h1 ++ [⟨("assistant"), reply⟩]
      ⟨limit_history h2,
        removeFile (addFile (removeFile (addFile s.tempDir wav_file) wav_file) tts_file) tts_file,
        some (build_request h1), none⟩

/-- The transcribe_and_generate_response function (app.py lines 158-221): the
try-body above followed unconditionally by the finally block at lines 220-221,
which runs cleanup_old_files on every exit path. -/
def transcribe_and_generate_response (s : CycleState) (o : Outcome) : CycleResult :=
  let r := cycle_body s o
  ⟨r.history, cleanup_old_files r.tempDir, r.request, r.error⟩

/-- The effect of one cycle on the chat history alone. -/
def cycle_step (h : List Turn) (o : Outcome) : List Turn :=
  (transcribe_and_generate_response ⟨h, []⟩ o).history

/- Voice catalog (app.py lines 27-29, 120-129 and 253-275). -/

/-- One raw voice record as returned by the edge_tts.list_voices collaborator:
only the two fields the code reads. -/
structure RawVoice where
  ShortName : String
  Locale : String
  deriving DecidableEq

/-- One entry of st.session_state.available_voices, as built by
initialize_voices (app.py lines 123-129). -/
structure Voice where
  name : String
  display : String
  deriving DecidableEq

/-- The initialize_voices mapping (app.py lines 123-129): each raw voice becomes
a record with its ShortName and the display label Locale - ShortName. -/
def initialize_voices (voices : List RawVoice) : List Voice :=
  voices.map (fun v => ⟨v.ShortName, v.Locale ++ (" - ") ++ v.ShortName⟩)

/-- The value st.session_state.selected_voice is initialised to at session start
(app.py lines 28-29). -/
def initial_selected_voice : String := Config.DEFAULT_VOICE

/-- What the sidebar leaves behind: the resulting selected voice id and whether
the no-voices warning was shown. -/
structure SidebarResult where
  selected_voice : String
  warned_no_voices : Bool
  deriving DecidableEq

/-- The sidebar voice-selection logic (app.py lines 256-275) at its default
selection (no user interaction, so st.selectbox returns the option at
default_idx).  An empty catalog takes the else branch at line 274: a warning is
shown and selected_voice keeps its current value.  Otherwise default_idx is the
first index of Config.DEFAULT_VOICE in the name list if present (the
try/except ValueError at lines 261-264), else 0; the selectbox yields the
display string at that index, whose first index in the display list is looked
up again (line 272) to read off the selected name. -/
def sidebar_voice_select : List Voice → String → SidebarResult
  | [], current => ⟨current, true⟩
  | v :: vs, _ =>
      let voice_options := (v :: vs).map (fun x => x.display)
      let voice_names := (v :: vs).map (fun x => x.name)
      let default_idx :=
        if Config.DEFAULT_VOICE ∈ voice_names then
          voice_names.indexOf Config.DEFAULT_VOICE
        else 0
      let selected_display := voice_options.getD default_idx ("")
      let selected_idx := voice_options.indexOf selected_display
      ⟨voice_names.getD selected_idx (""), false⟩

/- Chat-history export (app.py lines 138-144 and 277-283). -/

/-- A wall-clock reading as Python datetime.now() exposes it: the fields the
code formats.  Python datetime guarantees the bounds in valid_datetime. -/
structure DateTime where
  year : Nat
  month : Nat
  day : Nat
  hour : Nat
  minute : Nat
  second : Nat
  microsecond : Nat
  deriving DecidableEq

/-- The field bounds Python datetime guarantees for any constructed value. -/
def valid_datetime (t : DateTime) : Prop :=
  1 ≤ t.year ∧ t.year ≤ 9999 ∧ 1 ≤ t.month ∧ t.month ≤ 12 ∧ 1 ≤ t.day ∧ t.day ≤ 31 ∧
    t.hour ≤ 23 ∧ t.minute ≤ 59 ∧ t.second ≤ 59 ∧ t.microsecond ≤ 999999

instance (t : DateTime) : Decidable (valid_datetime t) := by
  unfold valid_datetime
  infer_instance

/-- The decimal digit character of n mod 10. -/
def digit (n : Nat) : Char := Char.ofNat (48 + n % 10)

/-- Two-digit zero-padded decimal (agrees with Python %02d for n < 100). -/
def pad2 (n : Nat) : List Char := [digit (n / 10), digit n]

/-- Four-digit zero-padded decimal (agrees with Python %04d for n < 10000). -/
def pad4 (n : Nat) : List Char :=
  [digit (n / 1000), digit (n / 100), digit (n / 10), digit n]

/-- Six-digit zero-padded decimal (agrees with Python %06d for n < 1000000). -/
def pad6 (n : Nat) : List Char :=
  [digit (n / 100000), digit (n / 10000), digit (n / 1000),
    digit (n / 100), digit (n / 10), digit n]

/-- The characters of Python datetime.isoformat(): date, the T separator, time,
and the .ffffff microseconds part exactly when the microsecond field is
nonzero. -/
def isoformat_chars (t : DateTime) : List Char :=
  pad4 t.year ++ ['-'] ++ pad2 t.month ++ ['-'] ++ pad2 t.day ++ ['T'] ++
    pad2 t.hour ++ [':'] ++ pad2 t.minute ++ [':'] ++ pad2 t.second ++
    (if t.microsecond = 0 then [] else '.' :: pad6 t.microsecond)

/-- Python datetime.isoformat() as used at app.py line 141. -/
def isoformat (t : DateTime) : String := String.mk (isoformat_chars t)

/-- The optional fractional-seconds tail of an ISO-8601 timestamp: either
nothing, or a dot followed by exactly six digits. -/
def iso_frac : List Char → Bool
  | [] => true
  | c :: f => c == '.' && f.length == 6 && f.all Char.isDigit

/-- Shape check for an ISO-8601 date-time string as Python fromisoformat
accepts it: YYYY-MM-DDTHH:MM:SS with an optional .ffffff tail. -/
def iso_core : List Char → Bool
  | y1 :: y2 :: y3 :: y4 :: s1 :: mo1 :: mo2 :: s2 :: d1 :: d2 :: s3 ::
      h1 :: h2 :: s4 :: mi1 :: mi2 :: s5 :: se1 :: se2 :: rest =>
      y1.isDigit && y2.isDigit && y3.isDigit && y4.isDigit && s1 == '-' &&
        mo1.isDigit && mo2.isDigit && s2 == '-' && d1.isDigit && d2.isDigit &&
        s3 == 'T' && h1.isDigit && h2.isDigit && s4 == ':' && mi1.isDigit &&
        mi2.isDigit && s5 == ':' && se1.isDigit && se2.isDigit && iso_frac rest
  | _ => false

/-- A string parses as an ISO-8601 timestamp (shape accepted by Python
datetime.fromisoformat). -/
def is_iso8601 (s : String) : Bool := iso_core s.data

/-- A JSON value, as much of it as json.dumps needs here. -/
inductive Json where
  | str : String → Json
  | arr : List Json → Json
  | obj : List (String × Json) → Json

/-- The field names of a JSON object, in order. -/
def Json.keys : Json → List String
  | Json.obj fields => fields.map Prod.fst
  | _ => []

/-- Field lookup in a JSON object. -/
def Json.lookupField : Json → String → Option Json
  | Json.obj fields, k => List.lookup k fields
  | _, _ => none

/-- The JSON encoding of one chat message dict. -/
def turn_to_json (t : Turn) : Json :=
  Json.obj [(("role"), Json.str t.role), (("content"), Json.str t.content)]

/-- The download_chat_history function (app.py lines 138-144): the exported
document has a timestamp field holding datetime.now().isoformat() and a
messages field holding the chat history, in order. -/
def download_chat_history (now : DateTime) (chat_history : List Turn) : Json :=
  Json.obj [(("timestamp"), Json.str (isoformat now)),
    (("messages"), Json.arr (chat_history.map turn_to_json))]

/-- The characters of datetime.now().strftime of YmdHMS with an underscore, as
used in the file name at app.py line 281. -/
def strftime_Ymd_HMS (t : DateTime) : List Char :=
  pad4 t.year ++ pad2 t.month ++ pad2 t.day ++ ['_'] ++
    pad2 t.hour ++ pad2 t.minute ++ pad2 t.second

/-- The download file name built at app.py line 281. -/
def download_file_name (t : DateTime) : String :=
  String.mk ((("chat_history_").data) ++ strftime_Ymd_HMS t ++ ((".json").data))

/-- Shape check for the documented file-name pattern: the literal prefix, eight
digits, an underscore, six digits, and the .json suffix. -/
def fname_core : List Char → Bool
  | p1 :: p2 :: p3 :: p4 :: p5 :: p6 :: p7 :: p8 :: p9 :: p10 :: p11 :: p12 :: p13 ::
      a1 :: a2 :: a3 :: a4 :: a5 :: a6 :: a7 :: a8 :: u1 ::
      b1 :: b2 :: b3 :: b4 :: b5 :: b6 :: e1 :: e2 :: e3 :: e4 :: e5 :: [] =>
      p1 == 'c' && p2 == 'h' && p3 == 'a' && p4 == 't' && p5 == '_' && p6 == 'h' &&
        p7 == 'i' && p8 == 's' && p9 == 't' && p10 == 'o' && p11 == 'r' && p12 == 'y' &&
        p13 == '_' && a1.isDigit && a2.isDigit && a3.isDigit && a4.isDigit && a5.isDigit &&
        a6.isDigit && a7.isDigit && a8.isDigit && u1 == '_' && b1.isDigit && b2.isDigit &&
        b3.isDigit && b4.isDigit && b5.isDigit && b6.isDigit && e1 == '.' && e2 == 'j' &&
        e3 == 's' && e4 == 'o' && e5 == 'n'
  | _ => false

/-- A string matches the chat_history_YYYYMMDD_HHMMSS.json pattern. -/
def matches_history_filename (s : String) : Bool := fname_core s.data

/- Helper lemmas. -/

/-- The length of a trimmed history is the minimum of its length and the cap. -/
theorem limit_history_length (h : List Turn) :
    (limit_history h).length = min h.length Config.MAX_HISTORY_LENGTH := by
  unfold limit_history
  split
  · rename_i hgt
    simp only [List.length_drop]
    omega
  · rename_i hle
    simp only [gt_iff_lt, not_lt] at hle
    omega

/-- Trimming a history already within the cap leaves it unchanged. -/
theorem limit_history_of_le (h : List Turn)
    (hle : h.length ≤ Config.MAX_HISTORY_LENGTH) : limit_history h = h := by
  unfold limit_history
  rw [if_neg]
  omega

/-- Claim C8: when trimming discards entries from a history that exceeds the
cap, only the oldest entries are discarded and the survivors keep their
relative order: the trimmed history is exactly the length-H suffix of the
pre-trim history. -/
theorem limit_history_drops_only_oldest (h : List Turn)
    (hgt : h.length > Config.MAX_HISTORY_LENGTH) :
    limit_history h = h.drop (h.length - Config.MAX_HISTORY_LENGTH) ∧
      (limit_history h).length = Config.MAX_HISTORY_LENGTH ∧
      ∃ dropped : List Turn,
        dropped ++ limit_history h = h ∧
          dropped.length = h.length - Config.MAX_HISTORY_LENGTH := by
  have heq : limit_history h = h.drop (h.length - Config.MAX_HISTORY_LENGTH) := by
    unfold limit_history
    rw [if_pos hgt]
  refine ⟨heq, ?_, ?_⟩
  · rw [limit_history_length]
    omega
  · refine ⟨h.take (h.length - Config.MAX_HISTORY_LENGTH), ?_, ?_⟩
    · rw [heq, List.take_append_drop]
    · simp only [List.length_take]
      omega

/-- Witness for C8 at a concrete 51-entry history. -/
theorem limit_history_drops_only_oldest_witness :
    (List.replicate 51 (Turn.mk ("user") ("x"))).length > Config.MAX_HISTORY_LENGTH ∧
      (limit_history (List.replicate 51 (Turn.mk ("user") ("x"))) =
          (List.replicate 51 (Turn.mk ("user") ("x"))).drop
            ((List.replicate 51 (Turn.mk ("user") ("x"))).length - Config.MAX_HISTORY_LENGTH) ∧
        (limit_history (List.replicate 51 (Turn.mk ("user") ("x")))).length =
          Config.MAX_HISTORY_LENGTH ∧
        ∃ dropped : List Turn,
          dropped ++ limit_history (List.replicate 51 (Turn.mk ("user") ("x"))) =
              List.replicate 51 (Turn.mk ("user") ("x")) ∧
            dropped.length =
              (List.replicate 51 (Turn.mk ("user") ("x"))).length - Config.MAX_HISTORY_LENGTH) :=
  ⟨by decide, limit_history_drops_only_oldest _ (by decide)⟩

/-- Claim C10: trimming is the identity on histories within the cap, and
trimming is idempotent on every history. -/
theorem limit_history_idempotent (h₁ h₂ : List Turn)
    (hle : h₁.length ≤ Config.MAX_HISTORY_LENGTH) :
    limit_history h₁ = h₁ ∧ limit_history (limit_history h₂) = limit_history h₂ := by
  refine ⟨limit_history_of_le h₁ hle, ?_⟩
  apply limit_history_of_le
  rw [limit_history_length]
  exact Nat.min_le_right _ _

/-- Witness for C10 at a concrete 3-entry and a concrete 51-entry history. -/
theorem limit_history_idempotent_witness :
    (List.replicate 3 (Turn.mk ("user") ("x"))).length ≤ Config.MAX_HISTORY_LENGTH ∧
      (limit_history (List.replicate 3 (Turn.mk ("user") ("x"))) =
          List.replicate 3 (Turn.mk ("user") ("x")) ∧
        limit_history (limit_history (List.replicate 51 (Turn.mk ("user") ("x")))) =
          limit_history (List.replicate 51 (Turn.mk ("user") ("x")))) :=
  ⟨by decide, limit_history_idempotent _ _ (by decide)⟩

/-- Claim C1 counterexample: the history produced by 51 consecutive cycles, each
of which transcribes a user turn and then fails at the generation stage, has
length 51, which exceeds the cap of 50 — so the length bound does not hold
after every append the code performs. -/
theorem history_cap_counterexample :
    ((List.replicate 51 (Outcome.genFailure ("hi"))).foldl cycle_step []).length = 51 ∧
      Config.MAX_HISTORY_LENGTH <
        ((List.replicate 51 (Outcome.genFailure ("hi"))).foldl cycle_step []).length := by
  constructor
  · decide
  · decide

/-- Claim C1 amended: the trim bounds the history at the cap — after any run of
limit_history the length is at most Config.MAX_HISTORY_LENGTH, and every
successful cycle (which appends the user and assistant turns and then trims)
ends with the length at most the cap.  The user-turn append itself is not
followed by a trim, so the bound can fail between a user append and the next
trim (see the counterexample). -/
theorem history_cap_after_trim (h : List Turn) (s : CycleState) (u a : String) :
    (limit_history h).length ≤ Config.MAX_HISTORY_LENGTH ∧
      (transcribe_and_generate_response s (Outcome.success u a)).history.length ≤
        Config.MAX_HISTORY_LENGTH := by
  constructor
  · rw [limit_history_length]
    exact Nat.min_le_right _ _
  · show (limit_history _).length ≤ _
    rw [limit_history_length]
    exact Nat.min_le_right _ _

/-- The 102 turns of the C2 scenario, numbered 1 to 102, alternating user and
assistant roles. -/
def c2_turns : List Turn :=
  (List.range 102).map (fun i => ⟨if i % 2 = 0 then ("user") else ("assistant"), toString (i + 1)⟩)

/-- The 51 successful cycles of the C2 scenario: cycle k appends turns 2k+1
(user transcript) and 2k+2 (assistant reply) and then trims. -/
def c2_cycles : List Outcome :=
  (List.range 51).map (fun k => Outcome.success (toString (2 * k + 1)) (toString (2 * k + 2)))

set_option maxRecDepth 40000 in
/-- Claim C2: from an empty history, 51 user/assistant pairs appended one pair
per cycle with the trim applied after each pair leave exactly 50 entries, and
those entries are turns 53 through 102 of the appended sequence, in order. -/
theorem scenario_51_pairs :
    (c2_cycles.foldl cycle_step []).length = 50 ∧
      c2_cycles.foldl cycle_step [] = c2_turns.drop 52 := by
  constructor
  · decide
  · decide

/-- Claim C3: when the model call fails after the user turn was appended, the
cycle ends with that user turn still at the end of the history (the append is
not rolled back), and an error is surfaced while the function returns normally
to the idle UI. -/
theorem genfailure_keeps_user_turn (s : CycleState) (u : String) :
    (transcribe_and_generate_response s (Outcome.genFailure u)).history =
        s.history ++ [Turn.mk ("user") u] ∧
      Turn.mk ("user") u ∈ (transcribe_and_generate_response s (Outcome.genFailure u)).history ∧
      (transcribe_and_generate_response s (Outcome.genFailure u)).error.isSome = true := by
  refine ⟨rfl, ?_, rfl⟩
  show _ ∈ s.history ++ [Turn.mk ("user") u]
  simp

/-- Claim C4: every failure before transcription succeeds — listen timeout,
empty capture, transcription service error, unintelligible audio — leaves the
history exactly unchanged and surfaces an error. -/
theorem prefailure_history_unchanged (s : CycleState) :
    ((transcribe_and_generate_response s Outcome.listenTimeout).history = s.history ∧
        (transcribe_and_generate_response s Outcome.listenTimeout).error.isSome = true) ∧
      ((transcribe_and_generate_response s Outcome.noAudioData).history = s.history ∧
        (transcribe_and_generate_response s Outcome.noAudioData).error.isSome = true) ∧
      ((transcribe_and_generate_response s Outcome.requestError).history = s.history ∧
        (transcribe_and_generate_response s Outcome.requestError).error.isSome = true) ∧
      ((transcribe_and_generate_response s Outcome.unknownValue).history = s.history ∧
        (transcribe_and_generate_response s Outcome.unknownValue).error.isSome = true) :=
  ⟨⟨rfl, rfl⟩, ⟨rfl, rfl⟩, ⟨rfl, rfl⟩, ⟨rfl, rfl⟩⟩

/-- Claim C5: whatever the outcome of the cycle — success, any failure stage,
or an exception — the temp directory is empty when the cycle finishes, because
every branch of the function body funnels through the final cleanup. -/
theorem temp_files_cleaned_every_path (s : CycleState) (o : Outcome) :
    (transcribe_and_generate_response s o).tempDir = [] ∧
      (transcribe_and_generate_response s o).tempDir =
        cleanup_old_files (cycle_body s o).tempDir := by
  exact ⟨rfl, rfl⟩

/-- Claim C7: whenever a cycle sends a request to the language-model
collaborator, that request consists of exactly the fixed system instruction
first, followed by the entire current history including the just-appended user
turn, and it carries the configured model, token limit and temperature. -/
theorem model_request_shape (s : CycleState) (o : Outcome) (r : Request)
    (hr : (transcribe_and_generate_response s o).request = some r) :
    r.messages.head? = some system_message ∧
      ∃ u : String,
        r.messages = system_message :: (s.history ++ [Turn.mk ("user") u]) ∧
          r.model = Config.LLM_MODEL ∧
          r.max_tokens = Config.MAX_TOKENS ∧
          r.temperature = Config.TEMPERATURE := by
  cases o with
  | listenTimeout => exact absurd hr (by simp [transcribe_and_generate_response, cycle_body])
  | noAudioData => exact absurd hr (by simp [transcribe_and_generate_response, cycle_body])
  | requestError => exact absurd hr (by simp [transcribe_and_generate_response, cycle_body])
  | unknownValue => exact absurd hr (by simp [transcribe_and_generate_response, cycle_body])
  | genFailure u =>
      simp only [transcribe_and_generate_response, cycle_body, Option.some.injEq] at hr
      subst hr
      exact ⟨rfl, u, rfl, rfl, rfl, rfl⟩
  | success u a =>
      simp only [transcribe_and_generate_response, cycle_body, Option.some.injEq] at hr
      subst hr
      exact ⟨rfl, u, rfl, rfl, rfl, rfl⟩

/-- Witness for C7 at a concrete state and a concrete successful cycle. -/
theorem model_request_shape_witness :
    (transcribe_and_generate_response ⟨[], []⟩ (Outcome.success ("hi") ("ok"))).request =
        some (build_request [Turn.mk ("user") ("hi")]) ∧
      ((build_request [Turn.mk ("user") ("hi")]).messages.head? = some system_message ∧
        ∃ u : String,
          (build_request [Turn.mk ("user") ("hi")]).messages =
              system_message :: ([] ++ [Turn.mk ("user") u]) ∧
            (build_request [Turn.mk ("user") ("hi")]).model = Config.LLM_MODEL ∧
            (build_request [Turn.mk ("user") ("hi")]).max_tokens = Config.MAX_TOKENS ∧
            (build_request [Turn.mk ("user") ("hi")]).temperature = Config.TEMPERATURE) :=
  ⟨rfl, model_request_shape ⟨[], []⟩ (Outcome.success ("hi") ("ok")) _ rfl⟩

/-- Every character produced by digit is a decimal digit. -/
theorem digit_isDigit (n : Nat) : (digit n).isDigit = true := by
  have h : n % 10 < 10 := Nat.mod_lt _ (by decide)
  unfold digit
  generalize hd : n % 10 = d
  rw [hd] at h
  interval_cases d <;> decide

set_option maxHeartbeats 1000000 in
/-- The isoformat output always passes the ISO-8601 shape check. -/
theorem isoformat_shape (t : DateTime) : is_iso8601 (isoformat t) = true := by
  unfold is_iso8601 isoformat isoformat_chars pad4 pad2
  by_cases hm : t.microsecond = 0 <;>
    simp [hm, iso_core, iso_frac, digit_isDigit, pad6]

set_option maxHeartbeats 1000000 in
/-- The download file name always passes the file-name pattern check. -/
theorem download_file_name_shape (t : DateTime) :
    matches_history_filename (download_file_name t) = true := by
  have hpre : (("chat_history_").data) =
      ['c', 'h', 'a', 't', '_', 'h', 'i', 's', 't', 'o', 'r', 'y', '_'] := rfl
  have hsuf : (((".json")).data) = ['.', 'j', 's', 'o', 'n'] := rfl
  unfold matches_history_filename download_file_name strftime_Ymd_HMS pad4 pad2
  rw [hpre, hsuf]
  simp [fname_core, digit_isDigit]

/-- Claim C6: exporting a history of N turns yields a document with exactly the
two fields timestamp and messages; the timestamp is a parseable ISO-8601
string; the messages array has exactly N entries, one per turn in the original
insertion order; and the offered file name matches the
chat_history_YYYYMMDD_HHMMSS.json pattern. -/
theorem export_document_shape (now : DateTime) (chat_history : List Turn)
    (_hv : valid_datetime now) :
    (download_chat_history now chat_history).keys = [("timestamp"), ("messages")] ∧
      (∃ ts : String,
        (download_chat_history now chat_history).lookupField ("timestamp") =
            some (Json.str ts) ∧ is_iso8601 ts = true) ∧
      (download_chat_history now chat_history).lookupField ("messages") =
          some (Json.arr (chat_history.map turn_to_json)) ∧
      (chat_history.map turn_to_json).length = chat_history.length ∧
      matches_history_filename (download_file_name now) = true := by
  refine ⟨rfl, ⟨isoformat now, rfl, isoformat_shape now⟩, rfl, ?_, download_file_name_shape now⟩
  simp

/-- Witness for C6 at a concrete clock reading and a concrete two-turn history. -/
theorem export_document_shape_witness :
    valid_datetime (DateTime.mk 2026 10 12 13 45 7 123456) ∧
      ((download_chat_history (DateTime.mk 2026 10 12 13 45 7 123456)
            [Turn.mk ("user") ("hey"), Turn.mk ("assistant") ("hello")]).keys =
          [("timestamp"), ("messages")] ∧
        (∃ ts : String,
          (download_chat_history (DateTime.mk 2026 10 12 13 45 7 123456)
                [Turn.mk ("user") ("hey"), Turn.mk ("assistant") ("hello")]).lookupField
              ("timestamp") = some (Json.str ts) ∧ is_iso8601 ts = true) ∧
        (download_chat_history (DateTime.mk 2026 10 12 13 45 7 123456)
              [Turn.mk ("user") ("hey"), Turn.mk ("assistant") ("hello")]).lookupField
            ("messages") =
          some (Json.arr
            ([Turn.mk ("user") ("hey"), Turn.mk ("assistant") ("hello")].map turn_to_json)) ∧
        ([Turn.mk ("user") ("hey"), Turn.mk ("assistant") ("hello")].map turn_to_json).length =
          [Turn.mk ("user") ("hey"), Turn.mk ("assistant") ("hello")].length ∧
        matches_history_filename
          (download_file_name (DateTime.mk 2026 10 12 13 45 7 123456)) = true) :=
  ⟨by decide, export_document_shape _ _ (by decide)⟩

/-- A two-entry catalog whose display labels collide: the locale of the first
raw voice ends where the short name of the second begins, so both map to the
display string q - r - en-US-JennyNeural. -/
def duplicate_display_catalog : List Voice :=
  initialize_voices [⟨("r - en-US-JennyNeural"), ("q")⟩, ⟨("en-US-JennyNeural"), ("q - r")⟩]

/-- Claim C9 counterexample: on this catalog the hardcoded default voice id is
present, yet the sidebar preselects a different voice, because the selectbox
roundtrip looks the chosen display label up by first occurrence and the two
labels collide. -/
theorem voice_selection_counterexample :
    Config.DEFAULT_VOICE ∈ duplicate_display_catalog.map (fun x => x.name) ∧
      (sidebar_voice_select duplicate_display_catalog
          Config.DEFAULT_VOICE).selected_voice ≠ Config.DEFAULT_VOICE := by
  constructor
  · decide
  · decide

/-- Claim C9 amended: provided the display labels of the catalog entries are
pairwise distinct, the preselection is deterministic — the hardcoded default
voice id if it is in the catalog, else the first available voice; and on an
empty catalog the sidebar warns that no voices are available, raises nothing,
and leaves the selected voice at its current value, which at session start is
the hardcoded default id. -/
theorem voice_selection_fallback (v : Voice) (vs : List Voice) (cur : String)
    (hnd : ((v :: vs).map (fun x => x.display)).Nodup) :
    (Config.DEFAULT_VOICE ∈ (v :: vs).map (fun x => x.name) →
        sidebar_voice_select (v :: vs) cur =
          SidebarResult.mk Config.DEFAULT_VOICE false) ∧
      (Config.DEFAULT_VOICE ∉ (v :: vs).map (fun x => x.name) →
        sidebar_voice_select (v :: vs) cur = SidebarResult.mk v.name false) ∧
      sidebar_voice_select [] cur = SidebarResult.mk cur true ∧
      (sidebar_voice_select [] initial_selected_voice).selected_voice =
        Config.DEFAULT_VOICE := by
  refine ⟨?_, ?_, rfl, rfl⟩
  · intro hmem
    have hlt : ((v :: vs).map (fun x => x.name)).indexOf Config.DEFAULT_VOICE <
        ((v :: vs).map (fun x => x.name)).length := List.indexOf_lt_length.mpr hmem
    have hlt2 : ((v :: vs).map (fun x => x.name)).indexOf Config.DEFAULT_VOICE <
        ((v :: vs).map (fun x => x.display)).length := by
      simpa using hlt
    simp only [sidebar_voice_select]
    rw [if_pos hmem, List.getD_eq_getElem _ _ hlt2, List.indexOf_getElem hnd _ hlt2,
      List.getD_eq_getElem _ _ hlt, List.getElem_indexOf hlt]
  · intro hmem
    have h0 : (0 : Nat) < ((v :: vs).map (fun x => x.display)).length := by simp
    simp only [sidebar_voice_select]
    rw [if_neg hmem, List.getD_eq_getElem _ _ h0]
    have hhead : ((v :: vs).map (fun x => x.display))[(0 : Nat)] = v.display := rfl
    rw [hhead]
    simp only [List.map_cons]
    rw [List.indexOf_cons_self]
    rfl

/-- Witness for C9 amended at a concrete two-voice catalog with distinct
display labels. -/
theorem voice_selection_fallback_witness :
    ((Voice.mk ("en-US-JennyNeural") ("en-US - en-US-JennyNeural") ::
          [Voice.mk ("en-GB-SoniaNeural") ("en-GB - en-GB-SoniaNeural")]).map
        (fun x => x.display)).Nodup ∧
      ((Config.DEFAULT_VOICE ∈
          (Voice.mk ("en-US-JennyNeural") ("en-US - en-US-JennyNeural") ::
              [Voice.mk ("en-GB-SoniaNeural") ("en-GB - en-GB-SoniaNeural")]).map
            (fun x => x.name) →
          sidebar_voice_select
              (Voice.mk ("en-US-JennyNeural") ("en-US - en-US-JennyNeural") ::
                [Voice.mk ("en-GB-SoniaNeural") ("en-GB - en-GB-SoniaNeural")])
              ("en-US-JennyNeural") =
            SidebarResult.mk Config.DEFAULT_VOICE false) ∧
        (Config.DEFAULT_VOICE ∉
            (Voice.mk ("en-US-JennyNeural") ("en-US - en-US-JennyNeural") ::
                [Voice.mk ("en-GB-SoniaNeural") ("en-GB - en-GB-SoniaNeural")]).map
              (fun x => x.name) →
          sidebar_voice_select
              (Voice.mk ("en-US-JennyNeural") ("en-US - en-US-JennyNeural") ::
                [Voice.mk ("en-GB-SoniaNeural") ("en-GB - en-GB-SoniaNeural")])
              ("en-US-JennyNeural") =
            SidebarResult.mk (Voice.mk ("en-US-JennyNeural")
              ("en-US - en-US-JennyNeural")).name false) ∧
        sidebar_voice_select [] ("en-US-JennyNeural") =
          SidebarResult.mk ("en-US-JennyNeural") true ∧
        (sidebar_voice_select [] initial_selected_voice).selected_voice =
          Config.DEFAULT_VOICE) :=
  ⟨by decide, voice_selection_fallback _ _ _ (by decide)⟩
